import Mathlib

/-!
Verification of the core of the bacpypes BACnet/IP stack: shallow embedding of
the segmentation state machines (`appservice.py`), the device-info cache
(`app.py`), the messaging framework (`comm.py`), the scheduler's deferred
function drain (`core.py`) and the IOCB controller (`sandbox/io.py`), with
theorems settling the specification's claims about them.
-/

set_option maxHeartbeats 1000000

namespace Bacpypes

/-- Python exception classes raised by the modelled code. -/
inductive PyErr where
  | configurationError (msg : String)
  | runtimeError (msg : String)
  | typeError (msg : String)
  | decodingError (msg : String)
  | valueError (msg : String)
  deriving DecidableEq, Repr

/-- The four values of `segmentationSupported` (strings in the source). -/
inductive SegSupport where
  | noSegmentation
  | segmentedTransmit
  | segmentedReceive
  | segmentedBoth
  deriving DecidableEq, Repr

/-! ## PDUData (`comm.py`, class PDUData)

The payload buffer is a `bytearray`; we model it as a list of byte values.
Readers remove from the head, writers append at the tail. -/

/-- `PDUData.get`: raise `DecodingError` on an empty buffer, else pop the head. -/
def pduGet : List Nat → Except PyErr (Nat × List Nat)
  | [] => .error (.decodingError "no more packet data")
  | octet :: rest => .ok (octet, rest)

/-- `PDUData.get_data(dlen)`: raise `DecodingError` when fewer than `dlen`
bytes remain (the length check precedes the deletion, so the buffer is
untouched on failure), else split off the first `dlen` bytes. -/
def pduGetData (data : List Nat) (dlen : Nat) : Except PyErr (List Nat × List Nat) :=
  if data.length < dlen then .error (.decodingError "no more packet data")
  else .ok (data.take dlen, data.drop dlen)

/-- Big-endian value of a byte string, as computed by `struct.unpack`. -/
def beDecode (bs : List Nat) : Nat :=
  bs.foldl (fun acc b => acc * 256 + b) 0

/-- Big-endian byte string of width `w` for `n`, as produced by `struct.pack`. -/
def beBytes : Nat → Nat → List Nat
  | 0, _ => []
  | w + 1, n => beBytes w (n / 256) ++ [n % 256]

/-- `PDUData.get_short`: `struct.unpack('>H', self.get_data(2))`. -/
def pduGetShort (data : List Nat) : Except PyErr (Nat × List Nat) :=
  match pduGetData data 2 with
  | .error e => .error e
  | .ok (d, rest) => .ok (beDecode d, rest)

/-- `PDUData.get_long`: `struct.unpack('>L', self.get_data(4))`. -/
def pduGetLong (data : List Nat) : Except PyErr (Nat × List Nat) :=
  match pduGetData data 4 with
  | .error e => .error e
  | .ok (d, rest) => .ok (beDecode d, rest)

/-- `PDUData.put`: `self.pduData += bytes([n])`; `bytes` raises `ValueError`
for an argument outside 0..255, otherwise one byte is appended. -/
def pduPut (data : List Nat) (n : Nat) : Except PyErr (List Nat) :=
  if n < 256 then .ok (data ++ [n]) else .error (.valueError "bytes must be in range")

/-- `PDUData.put_data`: regular append of a byte string. -/
def pduPutData (data more : List Nat) : List Nat := data ++ more

/-- `PDUData.put_short`: append `struct.pack('>H', n & 0xFFFF)`. -/
def pduPutShort (data : List Nat) (n : Nat) : List Nat :=
  data ++ beBytes 2 (n % 65536)

/-- `PDUData.put_long`: append `struct.pack('>L', n & 0xFFFFFFFF)`. -/
def pduPutLong (data : List Nat) (n : Nat) : List Nat :=
  data ++ beBytes 4 (n % 4294967296)

/-! ## DeviceInfo and segment sizing (`app.py`, `appservice.py`) -/

/-- DeviceInfo record (`app.py`, class DeviceInfo).  Addresses are modelled as
naturals.  `cacheKeys` is the `_cache_keys` attribute, absent (`none`) until
`update_device_info` first sees the record. -/
structure DeviceInfo where
  deviceIdentifier : Nat
  address : Nat
  maxApduLengthAccepted : Option Nat
  segmentationSupported : SegSupport
  maxSegmentsAccepted : Option Nat
  vendorID : Option Nat
  maxNpduLength : Option Nat
  refCount : Nat
  cacheKeys : Option (Nat × Nat)
  deriving DecidableEq, Repr

/-- `DeviceInfo.__init__`: the defaults set by the constructor. -/
def DeviceInfo.new (device_identifier address : Nat) : DeviceInfo :=
  ⟨device_identifier, address, some 1024, .noSegmentation, none, none, none, 0, none⟩

/-- Segment-size computation from `ClientSSM.indication` (appservice.py
lines 310-323): when there is no device record or the peer's
`maxApduLengthAccepted` is unknown, fall back to the local value; when only
the peer's `maxNpduLength` is unknown, use the peer's
`maxApduLengthAccepted`; otherwise take the minimum of the two peer values. -/
def clientSegmentSize (device_info : Option DeviceInfo) (maxApduLengthAccepted : Nat) : Nat :=
  match device_info with
  | none => maxApduLengthAccepted
  | some di =>
    match di.maxApduLengthAccepted with
    | none => maxApduLengthAccepted
    | some peerMaxApdu =>
      match di.maxNpduLength with
      | none => peerMaxApdu
      | some peerMaxNpdu => min peerMaxNpdu peerMaxApdu

/-- Segment-count computation shared by `ClientSSM.indication` and
`ServerSSM.confirmation`: one segment for an empty payload, else
`divmod(len, segmentSize)` plus one when there is a remainder. -/
def segCountOf (payloadLen segSize : Nat) : Nat :=
  if payloadLen = 0 then 1
  else payloadLen / segSize + (if payloadLen % segSize = 0 then 0 else 1)

/-! ## Segmentation state machine (`appservice.py`, class SSM) -/

/-- Transaction states (module-level constants in `appservice.py`). -/
inductive SSMState where
  | IDLE
  | SEGMENTED_REQUEST
  | AWAIT_CONFIRMATION
  | AWAIT_RESPONSE
  | SEGMENTED_RESPONSE
  | SEGMENTED_CONFIRMATION
  | COMPLETED
  | ABORTED
  deriving DecidableEq, Repr

/-- `SSM.set_state`: raise `RuntimeError` (before touching anything) when the
current state is COMPLETED or ABORTED, otherwise move to the new state. -/
def ssmSetState (state newState : SSMState) : Except PyErr SSMState :=
  if state = .COMPLETED ∨ state = .ABORTED then
    .error (.runtimeError "invalid state transition")
  else .ok newState

/-- `SSM.in_window(seqA, seqB)`: `((seqA - seqB + 256) % 256) < actualWindowSize`,
computed on Python integers (the subtraction may go negative). -/
def inWindow (seqA seqB win : Nat) : Bool :=
  ((seqA : Int) - (seqB : Int) + 256) % 256 < (win : Int)

/-- The `apduMor` (more-follows) flag that `SSM.get_segment(indx)` puts on a
segment: false for a one-segment message, else true exactly below the last
index. -/
def segMoreFollows (segmentCount indx : Nat) : Bool :=
  if segmentCount ≠ 1 then decide (indx < segmentCount - 1) else false

/-- `SSM.get_segment` reduced to its control effect: error for an index past
`segmentCount`, else the segment's more-follows flag. -/
def getSegmentMor (segmentCount indx : Nat) : Except PyErr Bool :=
  if segmentCount ≤ indx then .error (.runtimeError "invalid segment number")
  else .ok (segMoreFollows segmentCount indx)

/-- The loop body of `SSM.fill_window`: iterate `ix` over the window, sending
segment `seqNum + ix`, stopping after a segment with no more-follows (which
also sets `sentAllSegments`).  Returns the indices sent and whether
`sentAllSegments` was set. -/
def fillWindowGo (segmentCount : Nat) : Nat → Nat → Except PyErr (List Nat × Bool)
  | _, 0 => .ok ([], false)
  | seqNum, w + 1 =>
    match getSegmentMor segmentCount seqNum with
    | .error e => .error e
    | .ok mor =>
      if mor then
        match fillWindowGo segmentCount (seqNum + 1) w with
        | .error e => .error e
        | .ok (sent, flag) => .ok (seqNum :: sent, flag)
      else .ok ([seqNum], true)

/-- `SSM.fill_window(seqNum)`: run the window loop and fold the resulting flag
into `sentAllSegments` (it is only ever set, never cleared). -/
def fillWindow (segmentCount seqNum actualWindowSize : Nat) (sentAllSegments : Bool) :
    Except PyErr (List Nat × Bool) :=
  match fillWindowGo segmentCount seqNum actualWindowSize with
  | .error e => .error e
  | .ok (sent, flag) => .ok (sent, sentAllSegments || flag)

/-! ## ClientSSM (`appservice.py`) -/

/-- The mutable fields of a `ClientSSM` that its `segmented_request` handler
reads or writes.  `actualWindowSize` starts as `None`. -/
structure CState where
  state : SSMState
  initialSequenceNumber : Nat
  lastSequenceNumber : Nat
  segmentRetryCount : Nat
  retryCount : Nat
  sentAllSegments : Bool
  actualWindowSize : Option Nat
  segmentCount : Nat
  invokeID : Nat
  segmentTimeout : Nat
  apduTimeout : Nat
  proposedWindowSize : Nat
  deriving DecidableEq, Repr

/-- APDUs a `ClientSSM.confirmation` can receive. -/
inductive ClientApdu where
  | segmentAck (nak srv : Bool) (invokeID seq win : Nat)
  | simpleAck (invokeID : Nat)
  | complexAck (seg mor : Bool) (invokeID seq win : Nat)
  | errorPDU (invokeID : Nat)
  | rejectPDU (invokeID : Nat)
  | abortPDU (invokeID : Nat)
  deriving DecidableEq, Repr

/-- Externally visible actions of a `ClientSSM` transition. -/
inductive ClientEvt where
  | sendToDevice (apdu : ClientApdu)
  | sendToApp (apdu : ClientApdu)
  | sendSegment (indx : Nat)
  | restartTimer (msecs : Nat)
  | startTimer (msecs : Nat)
  deriving DecidableEq, Repr

/-- The timer side of `set_state(newState, timer)`: the old timer is always
stopped; a fresh one is started when `timer` is nonzero. -/
def setStateEvts (timer : Nat) : List ClientEvt :=
  if timer = 0 then [] else [.startTimer timer]

/-- `ClientSSM.abort(reason)`: move to ABORTED and build an abort PDU for the
caller to send. -/
def clientAbort (ssm : CState) : Except PyErr (CState × ClientApdu) :=
  match ssmSetState ssm.state .ABORTED with
  | .error e => .error e
  | .ok s => .ok ({ ssm with state := s }, .abortPDU ssm.invokeID)

/-- `ClientSSM.segmented_request(apdu)`, the handler run in state
SEGMENTED_REQUEST (appservice.py lines 448-522).  For a SegmentAck the actual
window size is overwritten from the ack before the in-window test; an
out-of-window (duplicate) ack then only restarts the segment timer. -/
def clientSegmentedRequest (ssm : CState) (apdu : ClientApdu) :
    Except PyErr (CState × List ClientEvt) :=
  match apdu with
  | .segmentAck _nak _srv _inv seq win =>
    let s1 := { ssm with actualWindowSize := some win }
    if !(inWindow seq s1.initialSequenceNumber win) then
      .ok (s1, [.restartTimer ssm.segmentTimeout])
    else if s1.sentAllSegments then
      match ssmSetState s1.state .AWAIT_CONFIRMATION with
      | .error e => .error e
      | .ok s => .ok ({ s1 with state := s }, setStateEvts ssm.apduTimeout)
    else
      let isn := (seq + 1) % 256
      let s2 := { s1 with initialSequenceNumber := isn, segmentRetryCount := 0 }
      match fillWindow s2.segmentCount isn win s2.sentAllSegments with
      | .error e => .error e
      | .ok (sent, allSent) =>
        .ok ({ s2 with sentAllSegments := allSent },
             sent.map .sendSegment ++ [.restartTimer ssm.segmentTimeout])
  | .simpleAck _ =>
    if !ssm.sentAllSegments then
      match clientAbort ssm with
      | .error e => .error e
      | .ok (s, ab) => .ok (s, [.sendToDevice ab, .sendToApp ab])
    else
      match ssmSetState ssm.state .COMPLETED with
      | .error e => .error e
      | .ok s => .ok ({ ssm with state := s }, [.sendToApp apdu])
  | .complexAck seg _mor _inv _seq win =>
    if !ssm.sentAllSegments then
      match clientAbort ssm with
      | .error e => .error e
      | .ok (s, ab) => .ok (s, [.sendToDevice ab, .sendToApp ab])
    else if !seg then
      match ssmSetState ssm.state .COMPLETED with
      | .error e => .error e
      | .ok s => .ok ({ ssm with state := s }, [.sendToApp apdu])
    else
      let s1 := { ssm with actualWindowSize := some (min win ssm.proposedWindowSize),
                           lastSequenceNumber := 0, initialSequenceNumber := 0 }
      match ssmSetState s1.state .SEGMENTED_CONFIRMATION with
      | .error e => .error e
      | .ok s => .ok ({ s1 with state := s }, setStateEvts ssm.segmentTimeout)
  | .errorPDU _ =>
    match ssmSetState ssm.state .COMPLETED with
    | .error e => .error e
    | .ok s => .ok ({ ssm with state := s }, [.sendToApp apdu])
  | .rejectPDU _ =>
    match ssmSetState ssm.state .COMPLETED with
    | .error e => .error e
    | .ok s => .ok ({ ssm with state := s }, [.sendToApp apdu])
  | .abortPDU _ =>
    match ssmSetState ssm.state .COMPLETED with
    | .error e => .error e
    | .ok s => .ok ({ ssm with state := s }, [.sendToApp apdu])

/-! ## SSM lifecycle and the transaction lists (C3) -/

/-- The identity and bookkeeping of one SSM as seen by the lifecycle code:
transactions are tracked by a list the SAP owns and removed from it (and their
device-info reference released) on entering a terminal state. -/
structure TrackedSSM where
  id : Nat
  invokeID : Nat
  pdu_address : Nat
  state : SSMState
  hasDeviceInfo : Bool
  deriving DecidableEq, Repr

/-- `ClientSSM.set_state` (appservice.py lines 269-284): the base transition,
then on COMPLETED or ABORTED removal from `clientTransactions` and release of
the device info (when one was acquired).  Returns the updated SSM, the updated
transaction list, and whether `release` was called. -/
def clientSetState (tr : TrackedSSM) (clientTransactions : List Nat) (newState : SSMState) :
    Except PyErr (TrackedSSM × List Nat × Bool) :=
  match ssmSetState tr.state newState with
  | .error e => .error e
  | .ok s =>
    let tr' := { tr with state := s }
    if newState = .COMPLETED ∨ newState = .ABORTED then
      .ok (tr', clientTransactions.erase tr.id, tr.hasDeviceInfo)
    else
      .ok (tr', clientTransactions, false)

/-- `ServerSSM.set_state` (appservice.py lines 705-720): identical shape,
against `serverTransactions`. -/
def serverSetState (tr : TrackedSSM) (serverTransactions : List Nat) (newState : SSMState) :
    Except PyErr (TrackedSSM × List Nat × Bool) :=
  match ssmSetState tr.state newState with
  | .error e => .error e
  | .ok s =>
    let tr' := { tr with state := s }
    if newState = .COMPLETED ∨ newState = .ABORTED then
      .ok (tr', serverTransactions.erase tr.id, tr.hasDeviceInfo)
    else
      .ok (tr', serverTransactions, false)

/-- The timeout handlers `ClientSSM.process_task` can dispatch to. -/
inductive ClientTimeout where
  | segmentedRequest
  | awaitConfirmation
  | segmentedConfirmation
  deriving DecidableEq, Repr

/-- `ClientSSM.process_task` (appservice.py lines 416-433): dispatch on the
state; COMPLETED and ABORTED are explicit no-ops, anything else unexpected
raises. -/
def clientProcessTask : SSMState → Except PyErr (Option ClientTimeout)
  | .SEGMENTED_REQUEST => .ok (some .segmentedRequest)
  | .AWAIT_CONFIRMATION => .ok (some .awaitConfirmation)
  | .SEGMENTED_CONFIRMATION => .ok (some .segmentedConfirmation)
  | .COMPLETED => .ok none
  | .ABORTED => .ok none
  | _ => .error (.runtimeError "invalid state")

/-- The timeout handlers `ServerSSM.process_task` can dispatch to. -/
inductive ServerTimeout where
  | segmentedRequest
  | awaitResponse
  | segmentedResponse
  deriving DecidableEq, Repr

/-- `ServerSSM.process_task` (appservice.py lines 860-879). -/
def serverProcessTask : SSMState → Except PyErr (Option ServerTimeout)
  | .SEGMENTED_REQUEST => .ok (some .segmentedRequest)
  | .AWAIT_RESPONSE => .ok (some .awaitResponse)
  | .SEGMENTED_RESPONSE => .ok (some .segmentedResponse)
  | .COMPLETED => .ok none
  | .ABORTED => .ok none
  | _ => .error (.runtimeError "invalid state")

/-! ## Invoke-ID allocation (`appservice.py`, StateMachineAccessPoint) -/

/-- Whether some client transaction pairs this invoke ID with this
destination address (the inner `for` loop of `get_next_invoke_id`). -/
def invokeInUse (clientTransactions : List (Nat × Nat)) (invokeID addr : Nat) : Bool :=
  clientTransactions.any (fun tr => invokeID == tr.1 && addr == tr.2)

/-- The `while 1` loop of `get_next_invoke_id`: take the counter as the
candidate, advance it mod 256, raise when the advanced counter meets the
initial one again, otherwise return the candidate unless it is in use for
this address.  The extra fuel argument only serves termination; 256 units
are more than the loop can consume. -/
def getNextInvokeIdAux (clientTransactions : List (Nat × Nat)) (addr initialID : Nat) :
    Nat → Nat → Except PyErr (Nat × Nat)
  | _, 0 => .error (.runtimeError "fuel exhausted")
  | nextInvokeID, g + 1 =>
    let invokeID := nextInvokeID
    let nextID := (nextInvokeID + 1) % 256
    if initialID = nextID then .error (.runtimeError "no available invoke ID")
    else if invokeInUse clientTransactions invokeID addr then
      getNextInvokeIdAux clientTransactions addr initialID nextID g
    else .ok (invokeID, nextID)

/-- `StateMachineAccessPoint.get_next_invoke_id(addr)` (appservice.py lines
1174-1193).  Returns the allocated ID and the new `nextInvokeID` counter. -/
def getNextInvokeId (clientTransactions : List (Nat × Nat)) (addr nextInvokeID : Nat) :
    Except PyErr (Nat × Nat) :=
  getNextInvokeIdAux clientTransactions addr nextInvokeID nextInvokeID 256

/-! ## Messaging framework registries (`comm.py`) -/

/-- The module-level `client_map` and `server_map`: named peers with a flag
recording whether their `clientPeer` / `serverPeer` is set. -/
structure CommWorld where
  client_map : List (Nat × Bool)
  server_map : List (Nat × Bool)
  deriving DecidableEq, Repr

/-- `Client.__init__(cid)` (comm.py lines 259-275): a duplicate cid raises
`ConfigurationError`; auto-bind to a same-named server raises
`ConfigurationError` when that server is already bound. -/
def clientInit (w : CommWorld) (cid : Option Nat) : Except PyErr CommWorld :=
  match cid with
  | none => .ok w
  | some c =>
    if w.client_map.any (fun p => p.1 == c) then
      .error (.configurationError "already a client")
    else
      match w.server_map.find? (fun p => p.1 == c) with
      | some sv =>
        if sv.2 then .error (.configurationError "server already bound")
        else
          .ok ⟨w.client_map ++ [(c, true)],
               w.server_map.map (fun p => if p.1 == c then (p.1, true) else p)⟩
      | none => .ok ⟨w.client_map ++ [(c, false)], w.server_map⟩

/-- `Server.__init__(sid)` (comm.py lines 294-310): a duplicate sid raises
`RuntimeError` ("already a server"); auto-bind to a same-named client raises
`ConfigurationError` when that client is already bound. -/
def serverInit (w : CommWorld) (sid : Option Nat) : Except PyErr CommWorld :=
  match sid with
  | none => .ok w
  | some s =>
    if w.server_map.any (fun p => p.1 == s) then
      .error (.runtimeError "already a server")
    else
      match w.client_map.find? (fun p => p.1 == s) with
      | some cl =>
        if cl.2 then .error (.configurationError "client already bound")
        else
          .ok ⟨w.client_map.map (fun p => if p.1 == s then (p.1, true) else p),
               w.server_map ++ [(s, true)]⟩
      | none => .ok ⟨w.client_map, w.server_map ++ [(s, true)]⟩

/-- The client/server case of the pairwise `bind` loop (comm.py lines
686-689): it sets `client.clientPeer` and `server.serverPeer` unconditionally;
there is no check that either peer was unbound. -/
def bindPair (_clientBound _serverBound : Bool) : Except PyErr (Bool × Bool) :=
  .ok (true, true)

/-- `Client.request` (comm.py lines 277-282): an unbound client raises
`ConfigurationError`, else the PDU goes to the peer's `indication`. -/
def clientRequest (clientPeer : Option Nat) : Except PyErr Nat :=
  match clientPeer with
  | none => .error (.configurationError "unbound client")
  | some p => .ok p

/-- `Server.response` (comm.py lines 315-320): an unbound server raises
`ConfigurationError`, else the PDU goes to the peer's `confirmation`. -/
def serverResponse (serverPeer : Option Nat) : Except PyErr Nat :=
  match serverPeer with
  | none => .error (.configurationError "unbound server")
  | some p => .ok p

/-- True exactly when the result is a raised `ConfigurationError`. -/
def raisesConfigurationError (r : Except PyErr CommWorld) : Bool :=
  match r with
  | .error (.configurationError _) => true
  | _ => false

/-! ## Deferred-function drain (`core.py`, `run` lines 170-182 and `deferred`)

A deferred function is named by a natural number; `env f` lists the functions
`f` enqueues (in order) via `deferred()` while it runs.  The drain is the
`while deferredFns:` loop: snapshot the list, clear it, invoke the snapshot in
order (appends during the pass land on the cleared global list), and loop
while the list is non-empty again. -/

/-- The functions enqueued onto the freshly cleared list while one snapshot is
invoked in order. -/
def passEnqueues (env : Nat → List Nat) (snapshot : List Nat) : List Nat :=
  snapshot.foldl (fun acc f => acc ++ env f) []

/-- The `while deferredFns:` drain loop: returns the invocation order and the
functions still pending when the fuel runs out (always `[]` once the drain
terminates). -/
def drainLoop (env : Nat → List Nat) : Nat → List Nat → List Nat × List Nat
  | 0, pending => ([], pending)
  | fuel + 1, pending =>
    if pending.isEmpty then ([], pending)
    else
      let next := drainLoop env fuel (passEnqueues env pending)
      (pending ++ next.1, next.2)

/-- Events of the `run` event loop, reduced to the claim's granularity: a
sleep/select step, or the invocation of a deferred function. -/
inductive LoopEvt where
  | select
  | invoke (f : Nat)
  deriving DecidableEq, Repr

/-- Iterations of the `while running:` body of `run` (core.py lines 132-182):
each iteration sleeps/selects, then drains the deferred list completely. -/
def runLoop (env : Nat → List Nat) : Nat → Nat → List Nat → List LoopEvt
  | 0, _, _ => []
  | iters + 1, drainFuel, pending =>
    let drained := drainLoop env drainFuel pending
    (LoopEvt.select :: drained.1.map LoopEvt.invoke) ++ runLoop env iters drainFuel drained.2

/-! ## IOCB state machine (`sandbox/io.py`) -/

/-- IOCB state constants (io.py lines 34-38). -/
def ioIDLE : Nat := 0

/-- `PENDING = 1`. -/
def ioPENDING : Nat := 1

/-- `ACTIVE = 2`. -/
def ioACTIVE : Nat := 2

/-- `COMPLETED = 3`. -/
def ioCOMPLETED : Nat := 3

/-- `ABORTED = 4`. -/
def ioABORTED : Nat := 4

/-- The fields of an IOCB that the completion/abort paths touch.
`hasController` tells whether `ioController` is set. -/
structure PyIOCB where
  ioState : Nat
  ioResponse : Option Nat
  ioError : Option Nat
  hasController : Bool
  deriving DecidableEq, Repr

/-- `IOController.complete_io` (io.py lines 617-635): a COMPLETED or ABORTED
block is left alone, anything else becomes COMPLETED. -/
def complete_io (iocb : PyIOCB) (msg : Nat) : PyIOCB :=
  if iocb.ioState = ioCOMPLETED then iocb
  else if iocb.ioState = ioABORTED then iocb
  else { iocb with ioState := ioCOMPLETED, ioResponse := some msg }

/-- `IOController.abort_io` (io.py lines 637-655): a COMPLETED or ABORTED
block is left alone, anything else becomes ABORTED. -/
def abort_io (iocb : PyIOCB) (err : Nat) : PyIOCB :=
  if iocb.ioState = ioCOMPLETED then iocb
  else if iocb.ioState = ioABORTED then iocb
  else { iocb with ioState := ioABORTED, ioError := some err }

/-- `IOCB.complete(msg)` (io.py lines 189-201): with a controller, delegate;
without one, set COMPLETED unconditionally — there is no state check. -/
def iocbComplete (iocb : PyIOCB) (msg : Nat) : PyIOCB :=
  if iocb.hasController then complete_io iocb msg
  else { iocb with ioState := ioCOMPLETED, ioResponse := some msg }

/-- `IOCB.abort(err)` (io.py lines 203-214): with a controller, delegate;
without one, set ABORTED only when `ioState < COMPLETED`. -/
def iocbAbort (iocb : PyIOCB) (err : Nat) : PyIOCB :=
  if iocb.hasController then abort_io iocb err
  else if iocb.ioState < ioCOMPLETED then { iocb with ioState := ioABORTED, ioError := some err }
  else iocb

/-- `IOGroup.abort(err)` on the group block itself (io.py lines 427-442): the
group's state is set to ABORTED unconditionally. -/
def iogroupAbort (iocb : PyIOCB) (err : Nat) : PyIOCB :=
  { iocb with ioState := ioABORTED, ioError := some err }

/-! ## DeviceInfoCache (`app.py`) -/

/-- Cache keys: the dict is indexed both by device instance and by address. -/
inductive CKey where
  | id (n : Nat)
  | addr (a : Nat)
  deriving DecidableEq, Repr

/-- The payload of an `IAmRequest` that `iam_device_info` reads. -/
structure IAm where
  deviceInstance : Nat
  source : Nat
  maxAPDULengthAccepted : Nat
  segmentationSupported : SegSupport
  vendorID : Nat
  deriving DecidableEq, Repr

/-- The cache: Python records are shared objects, so they live in an arena
(`store`, identity = position) and the `cache` dict maps keys to positions. -/
structure DICache where
  store : List DeviceInfo
  index : List (CKey × Nat)
  deriving DecidableEq, Repr

/-- `self.cache.get(key, None)` resolved to a record position. -/
def DICache.lookupIdx (c : DICache) (k : CKey) : Option Nat :=
  (c.index.find? (fun kv => kv.1 == k)).map (fun kv => kv.2)

/-- `DeviceInfoCache.get_device_info(key)`. -/
def DICache.getDeviceInfo (c : DICache) (k : CKey) : Option DeviceInfo :=
  (c.lookupIdx k).bind (fun i => c.store.get? i)

/-- `DeviceInfoCache.update_device_info` (app.py lines 139-168): re-index the
record under keys that changed since `_cache_keys` was last written, then
refresh `_cache_keys`.  For a record whose `_cache_keys` was never set both
old keys read as `None`, so neither branch fires and the record is not
inserted anywhere. -/
def updateDeviceInfo (c : DICache) (rid : Nat) : DICache :=
  match c.store.get? rid with
  | none => c
  | some di =>
    match di.cacheKeys with
    | none =>
      { c with store := c.store.set rid { di with cacheKeys := some (di.deviceIdentifier, di.address) } }
    | some (cache_id, cache_address) =>
      let idx1 :=
        if di.deviceIdentifier ≠ cache_id then
          c.index.filter (fun kv => kv.1 != CKey.id cache_id) ++ [(CKey.id di.deviceIdentifier, rid)]
        else c.index
      let idx2 :=
        if di.address ≠ cache_address then
          idx1.filter (fun kv => kv.1 != CKey.addr cache_address) ++ [(CKey.addr di.address, rid)]
        else idx1
      { store := c.store.set rid { di with cacheKeys := some (di.deviceIdentifier, di.address) },
        index := idx2 }

/-- `DeviceInfoCache.iam_device_info(apdu)` (app.py lines 97-128): locate the
record by device instance, fall back to the source address, else construct a
fresh one; overwrite its fields from the I-Am; hand it to
`update_device_info`. -/
def iamDeviceInfo (c : DICache) (apdu : IAm) : DICache :=
  let device_instance := apdu.deviceInstance
  let ridOpt :=
    match c.lookupIdx (CKey.id device_instance) with
    | some r => some r
    | none => c.lookupIdx (CKey.addr apdu.source)
  match ridOpt with
  | some rid =>
    match c.store.get? rid with
    | none => c
    | some di =>
      let di' := { di with deviceIdentifier := device_instance, address := apdu.source,
                           maxApduLengthAccepted := some apdu.maxAPDULengthAccepted,
                           segmentationSupported := apdu.segmentationSupported,
                           vendorID := some apdu.vendorID }
      updateDeviceInfo { c with store := c.store.set rid di' } rid
  | none =>
    let di0 := DeviceInfo.new device_instance apdu.source
    let di' := { di0 with maxApduLengthAccepted := some apdu.maxAPDULengthAccepted,
                          segmentationSupported := apdu.segmentationSupported,
                          vendorID := some apdu.vendorID }
    let rid := c.store.length
    updateDeviceInfo { c with store := c.store ++ [di'] } rid

/-! ## Theorems -/

/-- Concrete device record used in the C1 theorems: the peer's
`maxApduLengthAccepted` is known (480) but its `maxNpduLength` is not. -/
def c1Dev : DeviceInfo := ⟨2, 7, some 480, .segmentedBoth, none, none, none, 0, none⟩

/-- The I-Am used for the C2 failing input: device instance 1 at source
address 7. -/
def c2IAm : IAm := ⟨1, 7, 480, .segmentedBoth, 9⟩

/-- Concrete ClientSSM mid-way through a segmented request, used in the C5
theorems: window 2, next expected ack around sequence 10. -/
def c5SSM : CState := ⟨.SEGMENTED_REQUEST, 10, 0, 3, 0, false, some 2, 20, 1, 1500, 3000, 2⟩

/-- 255 client transactions to address 0, occupying invoke IDs 1..255. -/
def c4Trans : List (Nat × Nat) := (List.range 255).map (fun i => (i + 1, 0))


theorem segCountOf_eq_ceil (len s : Nat) (hl : 0 < len) (hs : 0 < s) :
    segCountOf len s = (len + s - 1) / s := by
  simp only [segCountOf, if_neg (Nat.pos_iff_ne_zero.mp hl)]
  have hmod := Nat.div_add_mod len s
  have hlt : len % s < s := Nat.mod_lt len hs
  by_cases h : len % s = 0
  · have h1 : len + s - 1 = s * (len / s) + (s - 1) := by omega
    have h2 : (s - 1) / s = 0 := Nat.div_eq_of_lt (by omega)
    rw [h1, Nat.mul_add_div hs, h2, if_pos h]
  · have hx : s * (len / s + 1) = s * (len / s) + s := by ring
    have h1 : len + s - 1 = s * (len / s + 1) + (len % s - 1) := by omega
    have h2 : (len % s - 1) / s = 0 := Nat.div_eq_of_lt (by omega)
    rw [h1, Nat.mul_add_div hs, h2, if_neg h]


/-- C1, counterexample: with a device record whose `maxApduLengthAccepted` is
known (480) but whose `maxNpduLength` is unknown, `ClientSSM.indication` sets
`segmentSize` to the peer's 480, not to the local `maxApduLengthAccepted`
(1024) that the claim's fallback prescribes. -/
theorem c1_counterexample :
    clientSegmentSize (some c1Dev) 1024 = 480 ∧ (480 : Nat) ≠ 1024 :=
  ⟨rfl, by decide⟩

/-- C1 (amended): on indication of a new request the segment size is
`min(device.maxNpduLength, device.maxApduLengthAccepted)` when both peer
values are known; when only `maxNpduLength` is unknown it is the peer's
`maxApduLengthAccepted`; it falls back to the local `maxApduLengthAccepted`
only when there is no device record or the peer's `maxApduLengthAccepted` is
unknown.  The segment count is `ceil(len(payload)/segmentSize)` with a
minimum of 1, so an empty payload yields exactly one segment. -/
theorem c1_segment_sizing :
    (∀ localMax, clientSegmentSize none localMax = localMax) ∧
    (∀ di localMax, di.maxApduLengthAccepted = none →
      clientSegmentSize (some di) localMax = localMax) ∧
    (∀ di localMax p, di.maxApduLengthAccepted = some p → di.maxNpduLength = none →
      clientSegmentSize (some di) localMax = p) ∧
    (∀ di localMax p q, di.maxApduLengthAccepted = some p → di.maxNpduLength = some q →
      clientSegmentSize (some di) localMax = min q p) ∧
    (∀ s, segCountOf 0 s = 1) ∧
    (∀ len s, 0 < len → 0 < s → segCountOf len s = (len + s - 1) / s) := by
  refine ⟨fun _ => rfl, ?_, ?_, ?_, fun _ => rfl, segCountOf_eq_ceil⟩
  · intro di localMax h
    simp [clientSegmentSize, h]
  · intro di localMax p hp hn
    simp [clientSegmentSize, hp, hn]
  · intro di localMax p q hp hq
    simp [clientSegmentSize, hp, hq]

/-- C1, witness: the amended theorem applied at concrete inputs. -/
theorem c1_segment_sizing_witness :
    clientSegmentSize (some c1Dev) 1024 = 480 ∧ segCountOf 4096 480 = (4096 + 480 - 1) / 480 :=
  ⟨c1_segment_sizing.2.2.1 c1Dev 1024 480 rfl rfl,
   c1_segment_sizing.2.2.2.2.2 4096 480 (by decide) (by decide)⟩


/-- C2 (code bug, evaluated at the failing input): an I-Am from a previously
unknown device — here an empty cache — leaves the cache index empty:
`update_device_info` only rewrites keys that changed since `_cache_keys` was
last set, and a fresh record has no `_cache_keys`, so it is never inserted.
Both subsequent lookups, by device instance and by source address, come back
empty, although `iam_device_info`'s own docstring says the record is put in
the cache. -/
theorem c2_iam_new_device_not_cached :
    (iamDeviceInfo ⟨[], []⟩ c2IAm).getDeviceInfo (CKey.id 1) = none ∧
    (iamDeviceInfo ⟨[], []⟩ c2IAm).getDeviceInfo (CKey.addr 7) = none ∧
    (iamDeviceInfo ⟨[], []⟩ c2IAm).index = [] := by
  decide

/-- C3: once an SSM is COMPLETED or ABORTED, `set_state` raises (the raise
precedes the mutation, so the state is untouched), a timer firing dispatches
to an explicit no-op, and the transition into COMPLETED or ABORTED removes the
SSM from its owning transaction list and releases its DeviceInfo reference
exactly when it holds one. -/
theorem c3_terminal_states :
    (∀ s ns, (s = SSMState.COMPLETED ∨ s = SSMState.ABORTED) →
      ssmSetState s ns = .error (.runtimeError "invalid state transition")) ∧
    (∀ tr trs ns, (tr.state = SSMState.COMPLETED ∨ tr.state = SSMState.ABORTED) →
      clientSetState tr trs ns = .error (.runtimeError "invalid state transition")) ∧
    (∀ tr trs ns, (tr.state = SSMState.COMPLETED ∨ tr.state = SSMState.ABORTED) →
      serverSetState tr trs ns = .error (.runtimeError "invalid state transition")) ∧
    (clientProcessTask .COMPLETED = .ok none ∧ clientProcessTask .ABORTED = .ok none ∧
     serverProcessTask .COMPLETED = .ok none ∧ serverProcessTask .ABORTED = .ok none) ∧
    (∀ tr trs ns, tr.state ≠ SSMState.COMPLETED → tr.state ≠ SSMState.ABORTED →
      (ns = SSMState.COMPLETED ∨ ns = SSMState.ABORTED) → trs.Nodup →
      clientSetState tr trs ns =
        .ok ({ tr with state := ns }, trs.erase tr.id, tr.hasDeviceInfo) ∧
      tr.id ∉ trs.erase tr.id) ∧
    (∀ tr trs ns, tr.state ≠ SSMState.COMPLETED → tr.state ≠ SSMState.ABORTED →
      (ns = SSMState.COMPLETED ∨ ns = SSMState.ABORTED) → trs.Nodup →
      serverSetState tr trs ns =
        .ok ({ tr with state := ns }, trs.erase tr.id, tr.hasDeviceInfo) ∧
      tr.id ∉ trs.erase tr.id) := by
  refine ⟨?_, ?_, ?_, ⟨rfl, rfl, rfl, rfl⟩, ?_, ?_⟩
  · intro s ns h
    simp [ssmSetState, h]
  · intro tr trs ns h
    simp [clientSetState, ssmSetState, h]
  · intro tr trs ns h
    simp [serverSetState, ssmSetState, h]
  · intro tr trs ns h1 h2 h3 hnd
    refine ⟨?_, hnd.not_mem_erase⟩
    simp [clientSetState, ssmSetState, h1, h2, h3]
  · intro tr trs ns h1 h2 h3 hnd
    refine ⟨?_, hnd.not_mem_erase⟩
    simp [serverSetState, ssmSetState, h1, h2, h3]

/-- C3, witness: the theorem applied at concrete inputs. -/
theorem c3_terminal_states_witness :
    ssmSetState .COMPLETED .IDLE = .error (.runtimeError "invalid state transition") ∧
    clientSetState ⟨4, 1, 9, .AWAIT_CONFIRMATION, true⟩ [4, 6] .COMPLETED =
      .ok (⟨4, 1, 9, .COMPLETED, true⟩, [6], true) :=
  ⟨c3_terminal_states.1 .COMPLETED .IDLE (Or.inl rfl),
   (c3_terminal_states.2.2.2.2.1 ⟨4, 1, 9, .AWAIT_CONFIRMATION, true⟩ [4, 6] .COMPLETED
      (by decide) (by decide) (Or.inl rfl) (by decide)).1⟩


/-- C5, counterexample: a duplicate (out-of-window) SegmentAck carrying window
5 leaves the state, sequence numbers, retry count and `sentAllSegments`
alone and only restarts the segment timer — but it does change
`actualWindowSize` from 2 to 5, because `segmented_request` overwrites it from
the ack before the in-window test.  The claim says `actualWindowSize` is
unchanged. -/
theorem c5_counterexample :
    clientSegmentedRequest c5SSM (.segmentAck false false 1 5 5) =
      .ok ({ c5SSM with actualWindowSize := some 5 }, [.restartTimer 1500]) ∧
    (some 5 : Option Nat) ≠ c5SSM.actualWindowSize :=
  ⟨rfl, by decide⟩

/-- C5 (amended): when a ClientSSM in SEGMENTED_REQUEST receives a SegmentAck
whose sequence number is out of the window — judged against the window size
carried by the ack, which is first written into `actualWindowSize` — the
state remains SEGMENTED_REQUEST, no PDU is sent, `initialSequenceNumber`,
`segmentRetryCount` and `sentAllSegments` are unchanged, `actualWindowSize`
becomes the ack's window, and the segment timer is restarted. -/
theorem c5_duplicate_segment_ack (ssm : CState) (nak srv : Bool) (inv seq win : Nat)
    (h : inWindow seq ssm.initialSequenceNumber win = false) :
    clientSegmentedRequest ssm (.segmentAck nak srv inv seq win) =
      .ok ({ ssm with actualWindowSize := some win }, [.restartTimer ssm.segmentTimeout]) := by
  simp [clientSegmentedRequest, h]

/-- C5, witness: the amended theorem applied at a concrete duplicate ack. -/
theorem c5_duplicate_segment_ack_witness :
    clientSegmentedRequest c5SSM (.segmentAck false false 1 200 2) =
      .ok ({ c5SSM with actualWindowSize := some 2 }, [.restartTimer 1500]) :=
  c5_duplicate_segment_ack c5SSM false false 1 200 2 (by decide)

/-- C6, counterexample: on a block with no controller, `abort` moves IDLE to
ABORTED, and a subsequent `complete` — which on the controllerless path has no
state check at all — moves the block from ABORTED to COMPLETED, crossing
between the two terminal states. -/
theorem c6_counterexample :
    (iocbAbort ⟨ioIDLE, none, none, false⟩ 7).ioState = ioABORTED ∧
    (iocbComplete (iocbAbort ⟨ioIDLE, none, none, false⟩ 7) 5).ioState = ioCOMPLETED := by
  decide

/-- C6 (amended): the controller paths `complete_io` and `abort_io` leave a
COMPLETED or ABORTED block untouched, and so do `complete`/`abort` on a block
bound to a controller, and `abort` on a controllerless block; but `complete`
on a controllerless block sets COMPLETED unconditionally, and `IOGroup.abort`
sets the group's state to ABORTED unconditionally, so those two operations can
move a block between or out of the terminal states. -/
theorem c6_terminal_iocb (iocb : PyIOCB) (msg err : Nat)
    (h : iocb.ioState = ioCOMPLETED ∨ iocb.ioState = ioABORTED) :
    complete_io iocb msg = iocb ∧
    abort_io iocb err = iocb ∧
    (iocb.hasController = true → iocbComplete iocb msg = iocb ∧ iocbAbort iocb err = iocb) ∧
    (iocb.hasController = false → iocbAbort iocb err = iocb) ∧
    (iocb.hasController = false → (iocbComplete iocb msg).ioState = ioCOMPLETED) ∧
    (iogroupAbort iocb err).ioState = ioABORTED := by
  have hC : complete_io iocb msg = iocb := by
    rcases h with h | h <;> simp [complete_io, h, ioCOMPLETED, ioABORTED]
  have hA : abort_io iocb err = iocb := by
    rcases h with h | h <;> simp [abort_io, h, ioCOMPLETED, ioABORTED]
  refine ⟨hC, hA, ?_, ?_, ?_, rfl⟩
  · intro hc
    exact ⟨by simp [iocbComplete, hc, hC], by simp [iocbAbort, hc, hA]⟩
  · intro hc
    rcases h with h | h <;> simp [iocbAbort, hc, h, ioCOMPLETED, ioABORTED]
  · intro hc
    simp [iocbComplete, hc]

/-- C6, witness: the amended theorem applied to a COMPLETED block. -/
theorem c6_terminal_iocb_witness :
    complete_io ⟨3, some 1, none, true⟩ 5 = ⟨3, some 1, none, true⟩ :=
  (c6_terminal_iocb ⟨3, some 1, none, true⟩ 5 7 (Or.inl rfl)).1

/-- C7, counterexample: constructing a second `Server` with a sid already in
the server map raises `RuntimeError` ("already a server"), not the
`ConfigurationError` the claim names. -/
theorem c7_counterexample :
    serverInit ⟨[], [(3, false)]⟩ (some 3) = .error (.runtimeError "already a server") ∧
    raisesConfigurationError (serverInit ⟨[], [(3, false)]⟩ (some 3)) = false :=
  ⟨rfl, rfl⟩

/-- C7 (amended): double-registering a client cid raises `ConfigurationError`
but double-registering a server sid raises `RuntimeError`; the constructor
auto-bind path raises `ConfigurationError` when the same-named counterpart is
already bound, while a direct `bind` of a client/server pair sets both peers
unconditionally and never fails on an already-bound peer; `request` on an
unbound Client and `response` on an unbound Server raise
`ConfigurationError`. -/
theorem c7_registry_errors :
    (∀ w c, w.client_map.any (fun p => p.1 == c) = true →
      clientInit w (some c) = .error (.configurationError "already a client")) ∧
    (∀ w s, w.server_map.any (fun p => p.1 == s) = true →
      serverInit w (some s) = .error (.runtimeError "already a server")) ∧
    (∀ w c sv, w.client_map.any (fun p => p.1 == c) = false →
      w.server_map.find? (fun p => p.1 == c) = some sv → sv.2 = true →
      clientInit w (some c) = .error (.configurationError "server already bound")) ∧
    (∀ w s cl, w.server_map.any (fun p => p.1 == s) = false →
      w.client_map.find? (fun p => p.1 == s) = some cl → cl.2 = true →
      serverInit w (some s) = .error (.configurationError "client already bound")) ∧
    (∀ cb sb, bindPair cb sb = .ok (true, true)) ∧
    clientRequest none = .error (.configurationError "unbound client") ∧
    serverResponse none = .error (.configurationError "unbound server") := by
  refine ⟨?_, ?_, ?_, ?_, fun _ _ => rfl, rfl, rfl⟩
  · intro w c h
    simp [clientInit, h]
  · intro w s h
    simp [serverInit, h]
  · intro w c sv h1 h2 h3
    simp [clientInit, h1, h2, h3]
  · intro w s cl h1 h2 h3
    simp [serverInit, h1, h2, h3]

/-- C7, witness: the amended theorem applied at a concrete duplicate cid. -/
theorem c7_registry_errors_witness :
    clientInit ⟨[(1, false)], []⟩ (some 1) = .error (.configurationError "already a client") :=
  c7_registry_errors.1 ⟨[(1, false)], []⟩ 1 (by decide)

theorem beBytes_foldl (w : Nat) :
    ∀ (n a : Nat), (beBytes w n).foldl (fun acc b => acc * 256 + b) a = a * 256 ^ w + n % 256 ^ w := by
  induction w with
  | zero =>
    intro n a
    simp [beBytes, Nat.mod_one]
  | succ w ih =>
    intro n a
    have hm : n % 256 ^ (w + 1) = 256 * (n / 256 % 256 ^ w) + n % 256 := by
      rw [pow_succ']
      rw [Nat.mod_mul]
      ring
    simp only [beBytes, List.foldl_append, ih, List.foldl_cons, List.foldl_nil]
    rw [hm, pow_succ]
    ring

theorem beDecode_beBytes (w n : Nat) : beDecode (beBytes w n) = n % 256 ^ w := by
  have := beBytes_foldl w n 0
  simpa [beDecode] using this

theorem beBytes_length (w : Nat) : ∀ n, (beBytes w n).length = w := by
  induction w with
  | zero => intro n; rfl
  | succ w ih => intro n; simp [beBytes, ih]

theorem getShort_putShort (n : Nat) :
    pduGetShort (pduPutShort [] n) = .ok (n % 65536, []) := by
  have hlen : (beBytes 2 (n % 65536)).length = 2 := beBytes_length 2 _
  have hdec : beDecode (beBytes 2 (n % 65536)) = n % 65536 := by
    rw [beDecode_beBytes]
    omega
  simp [pduGetShort, pduPutShort, pduGetData, hlen, hdec, List.take_of_length_le (le_of_eq hlen),
    List.drop_of_length_le (le_of_eq hlen)]

theorem getLong_putLong (n : Nat) :
    pduGetLong (pduPutLong [] n) = .ok (n % 4294967296, []) := by
  have hlen : (beBytes 4 (n % 4294967296)).length = 4 := beBytes_length 4 _
  have hdec : beDecode (beBytes 4 (n % 4294967296)) = n % 4294967296 := by
    rw [beDecode_beBytes]
    omega
  simp [pduGetLong, pduPutLong, pduGetData, hlen, hdec, List.take_of_length_le (le_of_eq hlen),
    List.drop_of_length_le (le_of_eq hlen)]

/-- C8: every head-removing reader (`get`, `get_data`, `get_short`,
`get_long`) raises `DecodingError` exactly when the buffer holds fewer bytes
than the read requires (the length check precedes the deletion, so a failed
read leaves the buffer as it was); the writers (`put`, `put_data`,
`put_short`, `put_long`) only ever append to the payload, and a value written
and read back at the head round-trips without loss. -/
theorem c8_pdu_buffer :
    pduGet [] = .error (.decodingError "no more packet data") ∧
    (∀ (b : Nat) rest, pduGet (b :: rest) = .ok (b, rest)) ∧
    (∀ (data : List Nat) dlen, data.length < dlen →
      pduGetData data dlen = .error (.decodingError "no more packet data")) ∧
    (∀ (data : List Nat) dlen, dlen ≤ data.length →
      pduGetData data dlen = .ok (data.take dlen, data.drop dlen) ∧
      data.take dlen ++ data.drop dlen = data) ∧
    (∀ data : List Nat, data.length < 2 →
      pduGetShort data = .error (.decodingError "no more packet data")) ∧
    (∀ data : List Nat, data.length < 4 →
      pduGetLong data = .error (.decodingError "no more packet data")) ∧
    (∀ (data : List Nat) n, n < 256 → pduPut data n = .ok (data ++ [n])) ∧
    (∀ data more : List Nat, pduPutData data more = data ++ more) ∧
    (∀ (data : List Nat) n, pduPutShort data n = data ++ beBytes 2 (n % 65536)) ∧
    (∀ (data : List Nat) n, pduPutLong data n = data ++ beBytes 4 (n % 4294967296)) ∧
    (∀ n, n < 256 → pduPut [] n = .ok [n] ∧ pduGet [n] = .ok (n, [])) ∧
    (∀ n, n < 65536 → pduGetShort (pduPutShort [] n) = .ok (n, [])) ∧
    (∀ n, n < 4294967296 → pduGetLong (pduPutLong [] n) = .ok (n, [])) := by
  refine ⟨rfl, fun _ _ => rfl, ?_, ?_, ?_, ?_, ?_, fun _ _ => rfl, fun _ _ => rfl, fun _ _ => rfl,
    ?_, ?_, ?_⟩
  · intro data dlen h
    simp [pduGetData, h]
  · intro data dlen h
    exact ⟨by simp [pduGetData, Nat.not_lt.mpr h], List.take_append_drop dlen data⟩
  · intro data h
    simp [pduGetShort, pduGetData, h]
  · intro data h
    simp [pduGetLong, pduGetData, h]
  · intro data n h
    simp [pduPut, h]
  · intro n h
    exact ⟨by simp [pduPut, h], rfl⟩
  · intro n h
    rw [getShort_putShort, Nat.mod_eq_of_lt h]
  · intro n h
    rw [getLong_putLong, Nat.mod_eq_of_lt h]

/-- C8, witness: the theorem applied at concrete inputs. -/
theorem c8_pdu_buffer_witness :
    pduGetData [1, 2] 3 = .error (.decodingError "no more packet data") ∧
    pduGetShort (pduPutShort [] 513) = .ok (513, []) :=
  ⟨c8_pdu_buffer.2.2.1 [1, 2] 3 (by decide), c8_pdu_buffer.2.2.2.2.2.2.2.2.2.2.2.1 513 (by decide)⟩

/-- C9, counterexample: with a single deferred function 0 that enqueues
function 1 while it runs, the loop's trace is select, invoke 0, invoke 1,
select — the enqueued function runs in the next snapshot of the *same*
`while deferredFns:` drain, before the loop returns to its sleep/select step,
not on the next iteration of the event loop as the claim says (which would
give the trace select, invoke 0, select, invoke 1). -/
theorem c9_counterexample :
    runLoop (fun f => if f = 0 then [1] else []) 2 4 [0] =
      [LoopEvt.select, LoopEvt.invoke 0, LoopEvt.invoke 1, LoopEvt.select] ∧
    [LoopEvt.select, LoopEvt.invoke 0, LoopEvt.invoke 1, LoopEvt.select] ≠
      [LoopEvt.select, LoopEvt.invoke 0, LoopEvt.select, LoopEvt.invoke 1] :=
  ⟨rfl, by decide⟩

/-- C9 (amended): each pass of the drain atomically snapshots and clears the
deferred list and invokes the snapshot's functions in FIFO order; a function
enqueued by `deferred()` during the pass is never part of the current
snapshot, but it is invoked by a later pass of the same `while deferredFns:`
drain — still inside the current event-loop iteration, before the loop
returns to its sleep/select step — not on the next iteration. -/
theorem c9_deferred_drain (env : Nat → List Nat) (df : Nat) (pending : List Nat)
    (hne : pending ≠ []) (iters : Nat) :
    drainLoop env (df + 1) pending =
      (pending ++ (drainLoop env df (passEnqueues env pending)).1,
       (drainLoop env df (passEnqueues env pending)).2) ∧
    runLoop env (iters + 1) (df + 1) pending =
      (LoopEvt.select :: (drainLoop env (df + 1) pending).1.map LoopEvt.invoke) ++
        runLoop env iters (df + 1) (drainLoop env (df + 1) pending).2 := by
  constructor
  · cases pending with
    | nil => exact absurd rfl hne
    | cons a t => simp [drainLoop, List.isEmpty]
  · simp [runLoop]

/-- C9, witness: the amended theorem applied at a concrete pending list. -/
theorem c9_deferred_drain_witness :
    drainLoop (fun _ => []) 1 [5] =
      ([5] ++ (drainLoop (fun _ => []) 0 (passEnqueues (fun _ => []) [5])).1,
       (drainLoop (fun _ => []) 0 (passEnqueues (fun _ => []) [5])).2) :=
  (c9_deferred_drain (fun _ => []) 0 [5] (by decide) 0).1

theorem segMoreFollows_false_iff (segCount i : Nat) (hi : i < segCount) :
    segMoreFollows segCount i = false ↔ i = segCount - 1 := by
  unfold segMoreFollows
  by_cases h : segCount = 1
  · subst h
    simp
    omega
  · simp [h]
    omega

theorem fillWindowGo_eq (segCount : Nat) :
    ∀ (W n : Nat), n < segCount →
      fillWindowGo segCount n W =
        .ok (List.range' n (min W (segCount - n)), decide (segCount - n ≤ W)) := by
  intro W
  induction W with
  | zero =>
    intro n hn
    have h1 : ¬ (segCount - n ≤ 0) := by omega
    simp [fillWindowGo, h1]
  | succ W ih =>
    intro n hn
    rcases Nat.lt_or_ge n (segCount - 1) with hlt | hge
    · have hmor : segMoreFollows segCount n = true := by
        unfold segMoreFollows
        have h1 : segCount ≠ 1 := by omega
        simp [h1]
        omega
      have hstep : getSegmentMor segCount n = .ok true := by
        unfold getSegmentMor
        rw [if_neg (by omega), hmor]
      have hn1 : n + 1 < segCount := by omega
      simp only [fillWindowGo, hstep, if_true]
      rw [ih (n + 1) hn1]
      have hmin : min (W + 1) (segCount - n) = min W (segCount - (n + 1)) + 1 := by omega
      have hdec : decide (segCount - (n + 1) ≤ W) = decide (segCount - n ≤ W + 1) := by
        simp only [decide_eq_decide]
        omega
      rw [hmin, List.range'_succ, hdec]
    · have hn' : n = segCount - 1 := by omega
      have hmor : segMoreFollows segCount n = false := by
        rw [segMoreFollows_false_iff segCount n hn]
        exact hn'
      have hstep : getSegmentMor segCount n = .ok false := by
        unfold getSegmentMor
        rw [if_neg (by omega), hmor]
      simp only [fillWindowGo, hstep, if_false, Bool.false_eq_true]
      have hmin : min (W + 1) (segCount - n) = 1 := by omega
      have hd : segCount - n ≤ W + 1 := by omega
      rw [hmin, List.range'_succ]
      simp [hd]

/-- C10: for an SSM with a segmentation context of `segmentCount` segments, a
window size `W ≥ 1` and a starting index `n` within the context,
`fill_window(n)` sends the consecutive segments `n, n+1, …` in strictly
increasing order, at most `W` of them; a segment whose more-follows flag is
false is the last one sent and is the final segment `segmentCount - 1`; and
`sentAllSegments` is set exactly when that final segment is among those sent,
the flag keeping its old value otherwise. -/
theorem c10_fill_window (segCount n W : Nat) (old : Bool) (hn : n < segCount) (hW : 1 ≤ W) :
    ∃ sent setAll,
      fillWindow segCount n W old = .ok (sent, old || setAll) ∧
      sent = List.range' n (min W (segCount - n)) ∧
      sent.length = min W (segCount - n) ∧
      sent.length ≤ W ∧
      sent.Pairwise (· < ·) ∧
      sent ≠ [] ∧
      (setAll = true ↔ (segCount - 1) ∈ sent) ∧
      (∀ i ∈ sent, segMoreFollows segCount i = false → i = segCount - 1 ∧ ∀ j ∈ sent, j ≤ i) ∧
      (setAll = false → (old || setAll) = old) := by
  refine ⟨List.range' n (min W (segCount - n)), decide (segCount - n ≤ W), ?_, rfl, ?_, ?_, ?_,
    ?_, ?_, ?_, ?_⟩
  · unfold fillWindow
    rw [fillWindowGo_eq segCount W n hn]
  · exact List.length_range' ..
  · rw [List.length_range' ..]
    exact min_le_left ..
  · exact List.pairwise_lt_range' ..
  · have h1 : min W (segCount - n) ≠ 0 := by omega
    intro hcon
    have h2 : (List.range' n (min W (segCount - n))).length = min W (segCount - n) :=
      List.length_range' ..
    rw [hcon] at h2
    simp at h2
    omega
  · rw [List.mem_range'_1, decide_eq_true_iff]
    omega
  · intro i hi hmor
    rw [List.mem_range'_1] at hi
    have hi' : i < segCount := by omega
    have he : i = segCount - 1 := (segMoreFollows_false_iff segCount i hi').mp hmor
    refine ⟨he, ?_⟩
    intro j hj
    rw [List.mem_range'_1] at hj
    omega
  · intro h
    rw [h, Bool.or_false]

/-- C10, witness: the theorem applied to a 9-segment context with window 4
starting at index 4 (no final segment in the window yet). -/
theorem c10_fill_window_witness :
    ∃ sent setAll,
      fillWindow 9 4 4 false = .ok (sent, false || setAll) ∧
      sent = List.range' 4 (min 4 (9 - 4)) ∧
      sent.length = min 4 (9 - 4) ∧
      sent.length ≤ 4 ∧
      sent.Pairwise (· < ·) ∧
      sent ≠ [] ∧
      (setAll = true ↔ (9 - 1) ∈ sent) ∧
      (∀ i ∈ sent, segMoreFollows 9 i = false → i = 9 - 1 ∧ ∀ j ∈ sent, j ≤ i) ∧
      (setAll = false → (false || setAll) = false) :=
  c10_fill_window 9 4 4 false (by decide) (by decide)

theorem getNextInvokeIdAux_error_iff (trs : List (Nat × Nat)) (addr init : Nat)
    (hinit : init < 256) :
    ∀ g k, g + k = 256 → 1 ≤ g →
      (getNextInvokeIdAux trs addr init ((init + k) % 256) g =
          .error (.runtimeError "no available invoke ID") ↔
        ∀ j, k ≤ j → j < 255 → invokeInUse trs ((init + j) % 256) addr = true) := by
  intro g
  induction g with
  | zero =>
    intro k hk h1
    exact absurd h1 (by omega)
  | succ g ih =>
    intro k hk _
    by_cases hk' : k = 255
    · subst hk'
      have hwrap : init = ((init + 255) % 256 + 1) % 256 := by omega
      simp only [getNextInvokeIdAux]
      rw [if_pos hwrap]
      constructor
      · intro _ j hj1 hj2
        exact absurd (Nat.lt_of_le_of_lt hj1 hj2) (by omega)
      · intro _
        rfl
    · have hkne : ¬ init = ((init + k) % 256 + 1) % 256 := by omega
      have hnext : ((init + k) % 256 + 1) % 256 = (init + (k + 1)) % 256 := by omega
      simp only [getNextInvokeIdAux]
      rw [if_neg hkne]
      by_cases hin : invokeInUse trs ((init + k) % 256) addr = true
      · rw [if_pos hin, hnext, ih (k + 1) (by omega) (by omega)]
        constructor
        · intro hall j hj1 hj2
          rcases Nat.eq_or_lt_of_le hj1 with he | hlt
          · rw [← he]
            exact hin
          · exact hall j (by omega) hj2
        · intro hall j hj1 hj2
          exact hall j (by omega) hj2
      · rw [if_neg hin]
        constructor
        · intro hok
          exact absurd hok (by simp)
        · intro hall
          exact absurd (hall k (Nat.le_refl k) (by omega)) hin

theorem getNextInvokeIdAux_ok (trs : List (Nat × Nat)) (addr init : Nat)
    (hinit : init < 256) :
    ∀ g k id nid, g + k = 256 →
      getNextInvokeIdAux trs addr init ((init + k) % 256) g = .ok (id, nid) →
      invokeInUse trs id addr = false ∧ nid = (id + 1) % 256 ∧
        ∃ m, k ≤ m ∧ m < 255 ∧ id = (init + m) % 256 ∧
          ∀ j, k ≤ j → j < m → invokeInUse trs ((init + j) % 256) addr = true := by
  intro g
  induction g with
  | zero =>
    intro k id nid hk hok
    simp [getNextInvokeIdAux] at hok
  | succ g ih =>
    intro k id nid hk hok
    by_cases hk' : k = 255
    · subst hk'
      have hwrap : init = ((init + 255) % 256 + 1) % 256 := by omega
      simp only [getNextInvokeIdAux] at hok
      rw [if_pos hwrap] at hok
      exact absurd hok (by simp)
    · have hkne : ¬ init = ((init + k) % 256 + 1) % 256 := by omega
      have hnext : ((init + k) % 256 + 1) % 256 = (init + (k + 1)) % 256 := by omega
      simp only [getNextInvokeIdAux] at hok
      rw [if_neg hkne] at hok
      by_cases hin : invokeInUse trs ((init + k) % 256) addr = true
      · rw [if_pos hin, hnext] at hok
        obtain ⟨h1, h2, m, hm1, hm2, hm3, hm4⟩ := ih (k + 1) id nid (by omega) hok
        refine ⟨h1, h2, m, by omega, hm2, hm3, ?_⟩
        intro j hj1 hj2
        rcases Nat.eq_or_lt_of_le hj1 with he | hlt
        · rw [← he]
          exact hin
        · exact hm4 j (by omega) hj2
      · rw [if_neg hin] at hok
        obtain ⟨hid, hnid⟩ := Prod.mk.inj (Except.ok.inj hok)
        refine ⟨?_, ?_, k, Nat.le_refl k, by omega, hid.symm, ?_⟩
        · rw [← hid]
          exact Bool.not_eq_true _ ▸ hin
        · rw [← hid, ← hnid]
        · intro j hj1 hj2
          exact absurd (Nat.lt_of_le_of_lt hj1 hj2) (Nat.lt_irrefl k)

/-- C4 (amended): `get_next_invoke_id(addr)` starts at the persistent counter
(initialised to 1) and advances it mod 256; when it returns, the ID is not in
use by any client transaction with the same destination address and is the
first free ID in the cyclic search order; but the search examines only the
255 candidates `counter, counter+1, …, counter+254 (mod 256)` and raises
exactly when all of those are in use for that address — the 256th value,
`(counter + 255) mod 256`, is never examined, so the call can raise while one
of the 256 invoke IDs is still free. -/
theorem c4_invoke_id (trs : List (Nat × Nat)) (addr init : Nat) (hinit : init < 256) :
    (getNextInvokeId trs addr init = .error (.runtimeError "no available invoke ID") ↔
      ∀ j < 255, invokeInUse trs ((init + j) % 256) addr = true) ∧
    (∀ id nid, getNextInvokeId trs addr init = .ok (id, nid) →
      invokeInUse trs id addr = false ∧ nid = (id + 1) % 256 ∧
        ∃ m < 255, id = (init + m) % 256 ∧
          ∀ j < m, invokeInUse trs ((init + j) % 256) addr = true) := by
  have h0 : (init + 0) % 256 = init := by omega
  constructor
  · have h := getNextInvokeIdAux_error_iff trs addr init hinit 256 0 (by omega) (by omega)
    rw [h0] at h
    unfold getNextInvokeId
    rw [h]
    constructor
    · intro hall j hj
      exact hall j (Nat.zero_le j) hj
    · intro hall j _ hj
      exact hall j hj
  · intro id nid hok
    unfold getNextInvokeId at hok
    have h := getNextInvokeIdAux_ok trs addr init hinit 256 0 id nid (by omega)
      (by rw [h0]; exact hok)
    obtain ⟨h1, h2, m, _, hm2, hm3, hm4⟩ := h
    exact ⟨h1, h2, m, hm2, hm3, fun j hj => hm4 j (Nat.zero_le j) hj⟩


theorem c4Trans_inUse (v : Nat) : invokeInUse c4Trans v 0 = true ↔ 1 ≤ v ∧ v ≤ 255 := by
  simp only [invokeInUse, c4Trans, List.any_eq_true, List.mem_map, List.mem_range,
    Bool.and_eq_true, beq_iff_eq]
  constructor
  · rintro ⟨tr, ⟨i, hi, rfl⟩, hv, _⟩
    omega
  · intro hv
    exact ⟨(v, 0), ⟨v - 1, by omega, by simp; omega⟩, rfl, rfl⟩

/-- C4, counterexample: with the 255 invoke IDs 1..255 all in use for address
0 and the counter at 1, `get_next_invoke_id` raises "no available invoke ID"
although invoke ID 0 — the one candidate the loop never examines — is still
free for that address.  The claim says it never raises while one of the 256
IDs is free. -/
theorem c4_counterexample :
    getNextInvokeId c4Trans 0 1 = .error (.runtimeError "no available invoke ID") ∧
    invokeInUse c4Trans 0 0 = false := by
  constructor
  · have h := getNextInvokeIdAux_error_iff c4Trans 0 1 (by omega) 256 0 (by omega) (by omega)
    have h0 : (1 + 0) % 256 = 1 := by omega
    rw [h0] at h
    unfold getNextInvokeId
    rw [h]
    intro j _ hj
    rw [c4Trans_inUse]
    omega
  · cases hcase : invokeInUse c4Trans 0 0 with
    | false => rfl
    | true => exact absurd ((c4Trans_inUse 0).mp hcase) (by omega)

/-- C4, witness: the amended theorem applied with no transactions in flight —
the counter value 1 itself is returned and the counter advances to 2. -/
theorem c4_invoke_id_witness :
    invokeInUse [] 1 0 = false ∧ (2 : Nat) = (1 + 1) % 256 ∧
    ∃ m < 255, (1 : Nat) = (1 + m) % 256 ∧
      ∀ j < m, invokeInUse [] ((1 + j) % 256) 0 = true :=
  (c4_invoke_id [] 0 1 (by decide)).2 1 2 rfl

end Bacpypes
